import Mathlib

/-!
Verification of the halo-cutting and line-of-sight shear pipeline in
`distributed_haloes_cutter.ipynb`.

The notebook loads a halo catalogue (a pandas dataframe with columns
`z, Rs, alpha_Rs, center_x, center_y, kappa, Del`), removes haloes whose
own single-plane convergence or flexion residual exceeds fixed thresholds,
and recomputes the aggregate line-of-sight shear and convergence from the
surviving sample.  We embed the notebook catalogue operations shallowly:

* a dataframe row becomes a `Halo`; a dataframe becomes a `List Halo`
  (row order preserved, as the notebook loops run in row order);
* the external collaborators declared out of scope by the design —
  the astropy function `angular_diameter_distance_z1z2` and the per-model
  point evaluation of `gamma` / `kappa` / `alpha` — are abstracted as
  function parameters `dA : ℚ → ℚ → ℚ` and `ev : LensEvaluator`; every
  structural fact below holds for all instantiations of those parameters;
* floating-point values are modelled by `ℚ`; where NaN propagation is the
  point at issue (the size assertion after the cut) a dedicated `FloatVal` type
  models a float column entry as either a rational or NaN, with NaN
  incomparable under `≤` and `>` exactly as in IEEE / pandas semantics.
-/

namespace DistributedHaloesCutter

/-- One row of the halo dataframe: redshift, angular NFW profile
parameters, angular position, own single-plane convergence `kappa`
(computed upstream against the source plane) and flexion residual `Del`.
This is the all-finite (NaN-free) view of the catalogue. -/
structure Halo where
  z : ℚ
  Rs : ℚ
  alpha_Rs : ℚ
  center_x : ℚ
  center_y : ℚ
  kappa : ℚ
  Del : ℚ
deriving DecidableEq

/-- The fixed notebook redshift of the observer (`z_observer = 0.0`). -/
def z_observer : ℚ := 0

/-- The fixed notebook redshift of the main lens (`z_lens = 1.2`). -/
def z_lens : ℚ := 6/5

/-- The fixed notebook redshift of the source (`z_source = 2.5`). -/
def z_source : ℚ := 5/2

/-- Distance `d_od = dA(z_observer, z_lens)`, where `dA` abstracts the
external angular-diameter distance between two redshifts. -/
def d_od (dA : ℚ → ℚ → ℚ) : ℚ := dA z_observer z_lens

/-- Distance `d_os = dA(z_observer, z_source)`. -/
def d_os (dA : ℚ → ℚ → ℚ) : ℚ := dA z_observer z_source

/-- Distance `d_ds = dA(z_lens, z_source)`. -/
def d_ds (dA : ℚ → ℚ → ℚ) : ℚ := dA z_lens z_source

/-- The cut:
`discarded_haloes_dataframe = haloes_dataframe.loc[(kappa > maximum_convergence) | (Del > maximum_Del)]`. -/
def discarded_haloes_dataframe (cat : List Halo)
    (maximum_convergence maximum_Del : ℚ) : List Halo :=
  cat.filter fun h => decide (h.kappa > maximum_convergence ∨ h.Del > maximum_Del)

/-- The cut:
`surviving_haloes_dataframe = haloes_dataframe.loc[(kappa <= maximum_convergence) & (Del <= maximum_Del)]`. -/
def surviving_haloes_dataframe (cat : List Halo)
    (maximum_convergence maximum_Del : ℚ) : List Halo :=
  cat.filter fun h => decide (h.kappa ≤ maximum_convergence ∧ h.Del ≤ maximum_Del)

/-- The two profile kinds a lens system of the design can contain. -/
inductive ProfileKind
  | NFW
  | CONVERGENCE
deriving DecidableEq

/-- The configuration with which the notebook constructs a lenstronomy
`LensModel`: the profile-kind list, the terminal source redshift, the
optional per-entry redshift list, and the multi-plane flag.  The notebook
passes only `lens_model_list` and `z_source`; the lenstronomy defaults for
the omitted arguments are `lens_redshift_list = None` and
`multi_plane = False`. -/
structure LensModelCfg where
  lens_model_list : List ProfileKind
  z_source : ℚ
  lens_redshift_list : Option (List ℚ)
  multi_plane : Bool
deriving DecidableEq

/-- Code: `os_lens_model = LensModel(lens_model_list = [NFW], z_source = z_source)` (quotes elided). -/
def os_lens_model : LensModelCfg :=
  ⟨[ProfileKind.NFW], z_source, none, false⟩

/-- Code: `od_lens_model = LensModel(lens_model_list = [NFW], z_source = z_source)` (quotes elided). -/
def od_lens_model : LensModelCfg :=
  ⟨[ProfileKind.NFW], z_source, none, false⟩

/-- Code: `ds_lens_model = LensModel(lens_model_list = [NFW], z_source = z_source)` (quotes elided). -/
def ds_lens_model : LensModelCfg :=
  ⟨[ProfileKind.NFW], z_source, none, false⟩

/-- The kwargs dictionary the notebook extracts for one NFW entry:
columns `Rs, alpha_Rs, center_x, center_y`. -/
structure NFWKwargs where
  Rs : ℚ
  alpha_Rs : ℚ
  center_x : ℚ
  center_y : ℚ
deriving DecidableEq

/-- Row-to-kwargs extraction,
`df[[Rs, alpha_Rs, center_x, center_y]].to_dict(records)` for one row (quotes elided). -/
def nfw_kwargs (h : Halo) : NFWKwargs :=
  ⟨h.Rs, h.alpha_Rs, h.center_x, h.center_y⟩

/-- Quantities the lensing library returns at one evaluation point:
`gamma` (two components), `kappa`, and `alpha` (two components). -/
structure LensQuantities where
  gamma1 : ℚ
  gamma2 : ℚ
  kappa : ℚ
  alpha1 : ℚ
  alpha2 : ℚ
deriving DecidableEq

/-- Abstract interface of the external lensing library: given a lens-model
configuration, an evaluation point `(x, y)` and the kwargs of the single
NFW entry passed to the call, return the point quantities.  The notebook
always evaluates at the optical axis `x = y = 0`. -/
def LensEvaluator : Type :=
  LensModelCfg → ℚ → ℚ → NFWKwargs → LensQuantities

/-- Code: `surviving_halo_redshift_list` from the z column of the surviving dataframe. -/
def surviving_halo_redshift_list (cat : List Halo) (mc mD : ℚ) : List ℚ :=
  (surviving_haloes_dataframe cat mc mD).map Halo.z

/-- Code: `kwargs_surviving_nfw`: the per-row kwargs of the surviving haloes. -/
def kwargs_surviving_nfw (cat : List Halo) (mc mD : ℚ) : List NFWKwargs :=
  (surviving_haloes_dataframe cat mc mD).map nfw_kwargs

/-- The list `gamma1_os`: first shear component of each surviving halo,
evaluated one halo at a time with `os_lens_model` at the optical axis. -/
def gamma1_os_list (ev : LensEvaluator) (cat : List Halo) (mc mD : ℚ) : List ℚ :=
  (kwargs_surviving_nfw cat mc mD).map fun k => (ev os_lens_model 0 0 k).gamma1

/-- The list `gamma2_os`. -/
def gamma2_os_list (ev : LensEvaluator) (cat : List Halo) (mc mD : ℚ) : List ℚ :=
  (kwargs_surviving_nfw cat mc mD).map fun k => (ev os_lens_model 0 0 k).gamma2

/-- The list `kappa_os`. -/
def kappa_os_list (ev : LensEvaluator) (cat : List Halo) (mc mD : ℚ) : List ℚ :=
  (kwargs_surviving_nfw cat mc mD).map fun k => (ev os_lens_model 0 0 k).kappa

/-- The list `alpha1_os`. -/
def alpha1_os_list (ev : LensEvaluator) (cat : List Halo) (mc mD : ℚ) : List ℚ :=
  (kwargs_surviving_nfw cat mc mD).map fun k => (ev os_lens_model 0 0 k).alpha1

/-- The list `alpha2_os`. -/
def alpha2_os_list (ev : LensEvaluator) (cat : List Halo) (mc mD : ℚ) : List ℚ :=
  (kwargs_surviving_nfw cat mc mD).map fun k => (ev os_lens_model 0 0 k).alpha2

/-- Code: `expected_gamma_os_1 = sum(gamma1_os)`. -/
def expected_gamma_os_1 (ev : LensEvaluator) (cat : List Halo) (mc mD : ℚ) : ℚ :=
  (gamma1_os_list ev cat mc mD).sum

/-- Code: `expected_gamma_os_2 = sum(gamma2_os)`. -/
def expected_gamma_os_2 (ev : LensEvaluator) (cat : List Halo) (mc mD : ℚ) : ℚ :=
  (gamma2_os_list ev cat mc mD).sum

/-- Code: `expected_kappa_os = sum(kappa_os)`. -/
def expected_kappa_os (ev : LensEvaluator) (cat : List Halo) (mc mD : ℚ) : ℚ :=
  (kappa_os_list ev cat mc mD).sum

/-- Code: `alpha1_os = sum(alpha1_os)` (the notebook rebinds the name). -/
def alpha1_os_sum (ev : LensEvaluator) (cat : List Halo) (mc mD : ℚ) : ℚ :=
  (alpha1_os_list ev cat mc mD).sum

/-- Code: `alpha2_os = sum(alpha2_os)`. -/
def alpha2_os_sum (ev : LensEvaluator) (cat : List Halo) (mc mD : ℚ) : ℚ :=
  (alpha2_os_list ev cat mc mD).sum

/-- Code: `foreground_haloes_dataframe`: the rows of the surviving dataframe whose
z column lies `between(z_observer, z_lens)`.
pandas `Series.between` is inclusive on both ends by default. -/
def foreground_haloes_dataframe (cat : List Halo) (mc mD : ℚ) : List Halo :=
  (surviving_haloes_dataframe cat mc mD).filter fun h =>
    decide (z_observer ≤ h.z ∧ h.z ≤ z_lens)

/-- Code: `foreground_halo_redshift_list` from the z column of the foreground dataframe. -/
def foreground_halo_redshift_list (cat : List Halo) (mc mD : ℚ) : List ℚ :=
  (foreground_haloes_dataframe cat mc mD).map Halo.z

/-- Code: `kwargs_foreground_nfw`: per-row kwargs of the foreground haloes. -/
def kwargs_foreground_nfw (cat : List Halo) (mc mD : ℚ) : List NFWKwargs :=
  (foreground_haloes_dataframe cat mc mD).map nfw_kwargs

/-- Code: `foreground_distance(z_halo) = (d_os*d_hd)/(d_od*d_hs)` with
`d_hd = dA(z_halo, z_lens)` and `d_hs = dA(z_halo, z_source)`. -/
def foreground_distance (dA : ℚ → ℚ → ℚ) (z_halo : ℚ) : ℚ :=
  (d_os dA * dA z_halo z_lens) / (d_od dA * dA z_halo z_source)

/-- The list `gamma1_od`: first shear component of each foreground halo,
evaluated one halo at a time with `od_lens_model` at the optical axis. -/
def gamma1_od_list (ev : LensEvaluator) (cat : List Halo) (mc mD : ℚ) : List ℚ :=
  (kwargs_foreground_nfw cat mc mD).map fun k => (ev od_lens_model 0 0 k).gamma1

/-- The list `gamma2_od`. -/
def gamma2_od_list (ev : LensEvaluator) (cat : List Halo) (mc mD : ℚ) : List ℚ :=
  (kwargs_foreground_nfw cat mc mD).map fun k => (ev od_lens_model 0 0 k).gamma2

/-- The list `kappa_od`. -/
def kappa_od_list (ev : LensEvaluator) (cat : List Halo) (mc mD : ℚ) : List ℚ :=
  (kwargs_foreground_nfw cat mc mD).map fun k => (ev od_lens_model 0 0 k).kappa

/-- The list `alpha1_od`. -/
def alpha1_od_list (ev : LensEvaluator) (cat : List Halo) (mc mD : ℚ) : List ℚ :=
  (kwargs_foreground_nfw cat mc mD).map fun k => (ev od_lens_model 0 0 k).alpha1

/-- The list `alpha2_od`. -/
def alpha2_od_list (ev : LensEvaluator) (cat : List Halo) (mc mD : ℚ) : List ℚ :=
  (kwargs_foreground_nfw cat mc mD).map fun k => (ev od_lens_model 0 0 k).alpha2

/-- Code: `foreground_distance_combination = [foreground_distance(i) for i in foreground_halo_redshift_list]`. -/
def foreground_distance_combination (dA : ℚ → ℚ → ℚ) (cat : List Halo)
    (mc mD : ℚ) : List ℚ :=
  (foreground_halo_redshift_list cat mc mD).map (foreground_distance dA)

/-- Code: `expected_gamma_od_1 = sum(np.multiply(gamma1_od, foreground_distance_combination))`. -/
def expected_gamma_od_1 (ev : LensEvaluator) (dA : ℚ → ℚ → ℚ)
    (cat : List Halo) (mc mD : ℚ) : ℚ :=
  (List.zipWith (fun a b : ℚ => a * b) (gamma1_od_list ev cat mc mD)
    (foreground_distance_combination dA cat mc mD)).sum

/-- Code: `expected_gamma_od_2 = sum(np.multiply(gamma2_od, foreground_distance_combination))`. -/
def expected_gamma_od_2 (ev : LensEvaluator) (dA : ℚ → ℚ → ℚ)
    (cat : List Halo) (mc mD : ℚ) : ℚ :=
  (List.zipWith (fun a b : ℚ => a * b) (gamma2_od_list ev cat mc mD)
    (foreground_distance_combination dA cat mc mD)).sum

/-- Code: `expected_kappa_od = sum(np.multiply(kappa_od, foreground_distance_combination))`. -/
def expected_kappa_od (ev : LensEvaluator) (dA : ℚ → ℚ → ℚ)
    (cat : List Halo) (mc mD : ℚ) : ℚ :=
  (List.zipWith (fun a b : ℚ => a * b) (kappa_od_list ev cat mc mD)
    (foreground_distance_combination dA cat mc mD)).sum

/-- Code: `alpha1_od = sum(np.multiply(alpha1_od, foreground_distance_combination))`. -/
def alpha1_od_sum (ev : LensEvaluator) (dA : ℚ → ℚ → ℚ)
    (cat : List Halo) (mc mD : ℚ) : ℚ :=
  (List.zipWith (fun a b : ℚ => a * b) (alpha1_od_list ev cat mc mD)
    (foreground_distance_combination dA cat mc mD)).sum

/-- Code: `alpha2_od = sum(np.multiply(alpha2_od, foreground_distance_combination))`. -/
def alpha2_od_sum (ev : LensEvaluator) (dA : ℚ → ℚ → ℚ)
    (cat : List Halo) (mc mD : ℚ) : ℚ :=
  (List.zipWith (fun a b : ℚ => a * b) (alpha2_od_list ev cat mc mD)
    (foreground_distance_combination dA cat mc mD)).sum

/-- Code: `background_haloes_dataframe`: the rows of the surviving dataframe whose
z column lies `between(z_lens, z_source)`
(inclusive on both ends). -/
def background_haloes_dataframe (cat : List Halo) (mc mD : ℚ) : List Halo :=
  (surviving_haloes_dataframe cat mc mD).filter fun h =>
    decide (z_lens ≤ h.z ∧ h.z ≤ z_source)

/-- Code: `background_halo_redshift_list` from the z column of the background dataframe. -/
def background_halo_redshift_list (cat : List Halo) (mc mD : ℚ) : List ℚ :=
  (background_haloes_dataframe cat mc mD).map Halo.z

/-- Code: `kwargs_background_nfw`: per-row kwargs of the background haloes. -/
def kwargs_background_nfw (cat : List Halo) (mc mD : ℚ) : List NFWKwargs :=
  (background_haloes_dataframe cat mc mD).map nfw_kwargs

/-- Code: `background_distance(z_halo) = (d_os*d_db)/(d_ob*d_ds)` with
`d_db = dA(z_lens, z_halo)` and `d_ob = dA(z_observer, z_halo)`. -/
def background_distance (dA : ℚ → ℚ → ℚ) (z_halo : ℚ) : ℚ :=
  (d_os dA * dA z_lens z_halo) / (dA z_observer z_halo * d_ds dA)

/-- The list `gamma1_ds`: first shear component of each background halo,
evaluated one halo at a time with `ds_lens_model` at the optical axis. -/
def gamma1_ds_list (ev : LensEvaluator) (cat : List Halo) (mc mD : ℚ) : List ℚ :=
  (kwargs_background_nfw cat mc mD).map fun k => (ev ds_lens_model 0 0 k).gamma1

/-- The list `gamma2_ds`. -/
def gamma2_ds_list (ev : LensEvaluator) (cat : List Halo) (mc mD : ℚ) : List ℚ :=
  (kwargs_background_nfw cat mc mD).map fun k => (ev ds_lens_model 0 0 k).gamma2

/-- The list `kappa_ds`. -/
def kappa_ds_list (ev : LensEvaluator) (cat : List Halo) (mc mD : ℚ) : List ℚ :=
  (kwargs_background_nfw cat mc mD).map fun k => (ev ds_lens_model 0 0 k).kappa

/-- Code: `background_distance_combination = [background_distance(i) for i in background_halo_redshift_list]`. -/
def background_distance_combination (dA : ℚ → ℚ → ℚ) (cat : List Halo)
    (mc mD : ℚ) : List ℚ :=
  (background_halo_redshift_list cat mc mD).map (background_distance dA)

/-- Code: `expected_gamma_ds_1 = sum(np.multiply(gamma1_ds, background_distance_combination))`. -/
def expected_gamma_ds_1 (ev : LensEvaluator) (dA : ℚ → ℚ → ℚ)
    (cat : List Halo) (mc mD : ℚ) : ℚ :=
  (List.zipWith (fun a b : ℚ => a * b) (gamma1_ds_list ev cat mc mD)
    (background_distance_combination dA cat mc mD)).sum

/-- Code: `expected_gamma_ds_2 = sum(np.multiply(gamma2_ds, background_distance_combination))`. -/
def expected_gamma_ds_2 (ev : LensEvaluator) (dA : ℚ → ℚ → ℚ)
    (cat : List Halo) (mc mD : ℚ) : ℚ :=
  (List.zipWith (fun a b : ℚ => a * b) (gamma2_ds_list ev cat mc mD)
    (background_distance_combination dA cat mc mD)).sum

/-- Code: `expected_kappa_ds = sum(np.multiply(kappa_ds, background_distance_combination))`. -/
def expected_kappa_ds (ev : LensEvaluator) (dA : ℚ → ℚ → ℚ)
    (cat : List Halo) (mc mD : ℚ) : ℚ :=
  (List.zipWith (fun a b : ℚ => a * b) (kappa_ds_list ev cat mc mD)
    (background_distance_combination dA cat mc mD)).sum

/-- Code: `expected_gamma_LOS_1 = expected_gamma_os_1 + expected_gamma_od_1 - expected_gamma_ds_1`. -/
def expected_gamma_LOS_1 (ev : LensEvaluator) (dA : ℚ → ℚ → ℚ)
    (cat : List Halo) (mc mD : ℚ) : ℚ :=
  expected_gamma_os_1 ev cat mc mD + expected_gamma_od_1 ev dA cat mc mD
    - expected_gamma_ds_1 ev dA cat mc mD

/-- Code: `expected_gamma_LOS_2 = expected_gamma_os_2 + expected_gamma_od_2 - expected_gamma_ds_2`. -/
def expected_gamma_LOS_2 (ev : LensEvaluator) (dA : ℚ → ℚ → ℚ)
    (cat : List Halo) (mc mD : ℚ) : ℚ :=
  expected_gamma_os_2 ev cat mc mD + expected_gamma_od_2 ev dA cat mc mD
    - expected_gamma_ds_2 ev dA cat mc mD

/-- Code: `expected_kappa_LOS = expected_kappa_os + expected_kappa_od - expected_kappa_ds`. -/
def expected_kappa_LOS (ev : LensEvaluator) (dA : ℚ → ℚ → ℚ)
    (cat : List Halo) (mc mD : ℚ) : ℚ :=
  expected_kappa_os ev cat mc mD + expected_kappa_od ev dA cat mc mD
    - expected_kappa_ds ev dA cat mc mD

/-! ### Floating-point view of the cut

The `kappa` and `Del` columns are floats read from a file, so a value can
be NaN.  `FloatVal` models one float cell: either a rational or NaN.
`fle`/`fgt` are IEEE comparisons: any comparison with NaN is false, which
is exactly how pandas evaluates `kappa <= maximum_convergence` and
`kappa > maximum_convergence` on a NaN cell. -/

/-- A float cell: a rational value or NaN. -/
inductive FloatVal
  | nan : FloatVal
  | val : ℚ → FloatVal
deriving DecidableEq

/-- IEEE-style `x <= c`: false when `x` is NaN. -/
def fle : FloatVal → ℚ → Bool
  | FloatVal.nan, _ => false
  | FloatVal.val a, c => decide (a ≤ c)

/-- IEEE-style `x > c`: false when `x` is NaN. -/
def fgt : FloatVal → ℚ → Bool
  | FloatVal.nan, _ => false
  | FloatVal.val a, c => decide (c < a)

/-- A catalogue row as loaded, keeping the possibly-NaN `kappa` and `Del`
float cells (only the fields the cut reads are kept). -/
structure FHalo where
  z : ℚ
  kappa : FloatVal
  Del : FloatVal
deriving DecidableEq

/-- The discarded side of the cut over possibly-NaN cells:
`(kappa > maximum_convergence) | (Del > maximum_Del)`. -/
def discarded_haloes_f (cat : List FHalo) (mc mD : ℚ) : List FHalo :=
  cat.filter fun h => fgt h.kappa mc || fgt h.Del mD

/-- The surviving side of the cut over possibly-NaN cells:
`(kappa <= maximum_convergence) & (Del <= maximum_Del)`. -/
def surviving_haloes_f (cat : List FHalo) (mc mD : ℚ) : List FHalo :=
  cat.filter fun h => fle h.kappa mc && fle h.Del mD

/-- The notebook post-cut check,
`assert discarded_halo_number + surviving_halo_number == halo_number`. -/
def cut_size_assert (cat : List FHalo) (mc mD : ℚ) : Bool :=
  (discarded_haloes_f cat mc mD).length + (surviving_haloes_f cat mc mD).length
    == cat.length

/-! ### List helper lemmas -/

/-- Zipping two maps over the same list elementwise is a single map. -/
theorem zipWith_map_same {α β γ δ : Type} (f : β → γ → δ) (g : α → β) (j : α → γ) :
    ∀ l : List α, List.zipWith f (l.map g) (l.map j) = l.map fun x => f (g x) (j x)
  | [] => rfl
  | x :: xs => by
      simp only [List.map_cons, List.zipWith_cons_cons, zipWith_map_same f g j xs]

/-- Filtering by a predicate and by its pointwise complement splits the
length of a list exactly. -/
theorem length_filter_compl {α : Type} (p q : α → Bool) :
    ∀ l : List α, (∀ x ∈ l, q x = !p x) →
      (l.filter p).length + (l.filter q).length = l.length
  | [], _ => rfl
  | x :: xs, h => by
      have hx : q x = !p x := h x (List.mem_cons_self x xs)
      have ih := length_filter_compl p q xs fun y hy => h y (List.mem_cons_of_mem x hy)
      cases hp : p x <;>
        rw [hp] at hx <;>
        simp [List.filter_cons, hp, hx] <;>
        omega

/-- Filtering by two pointwise-disjoint predicates and by the residual
neither-of-them predicate splits the length of a list exactly. -/
theorem length_filter_partition {α : Type} (p q : α → Bool) :
    ∀ l : List α, (∀ x ∈ l, p x = true → q x = false) →
      (l.filter p).length + (l.filter q).length
        + (l.filter fun x => !p x && !q x).length = l.length
  | [], _ => rfl
  | x :: xs, h => by
      have hx := h x (List.mem_cons_self x xs)
      have ih := length_filter_partition p q xs fun y hy => h y (List.mem_cons_of_mem x hy)
      cases hp : p x <;> cases hq : q x
      · simp [List.filter_cons, hp, hq]
        omega
      · simp [List.filter_cons, hp, hq]
        omega
      · simp [List.filter_cons, hp, hq]
        omega
      · exact absurd (hx hp) (by simp [hq])

/-- With pointwise-disjoint predicates and one element satisfying
neither, the two filter lengths sum to strictly less than the list
length. -/
theorem length_filter_two_lt {α : Type} (p q : α → Bool) (l : List α)
    (hdisj : ∀ x ∈ l, p x = true → q x = false)
    (x0 : α) (hx0 : x0 ∈ l) (hp0 : p x0 = false) (hq0 : q x0 = false) :
    (l.filter p).length + (l.filter q).length < l.length := by
  have hsplit := length_filter_partition p q l hdisj
  have hmem : x0 ∈ l.filter fun x => !p x && !q x := by
    refine List.mem_filter.mpr ⟨hx0, ?_⟩
    rw [hp0, hq0]
    rfl
  have hpos : 0 < (l.filter fun x => !p x && !q x).length :=
    List.length_pos_of_mem hmem
  omega

/-! ### Concrete instantiations used in counterexamples and witnesses

The external collaborators are instantiated with simple total functions:
`ev0` reads the point quantities directly off the kwargs fields and `dA0`
is a toy distance. Any instantiation works for the universally quantified
theorems; these are only needed to exhibit concrete runs. -/

/-- A concrete lens evaluator for witnesses and counterexamples. -/
def ev0 : LensEvaluator :=
  fun _ _ _ k => ⟨k.Rs, k.alpha_Rs, k.Rs, k.center_x, k.center_y⟩

/-- A concrete distance function for witnesses and counterexamples. -/
def dA0 : ℚ → ℚ → ℚ := fun z1 z2 => z2 - z1

/-- A surviving foreground halo at redshift 1/2. -/
def exHalo1 : Halo := ⟨1/2, 1, 1, 0, 0, 0, 0⟩

/-- A one-halo catalogue whose halo survives the cut. -/
def exCat1 : List Halo := [exHalo1]

/-- A surviving halo sitting exactly at the main-lens redshift. -/
def exHalo2 : Halo := ⟨6/5, 1, 1, 0, 0, 0, 0⟩

/-- A one-halo catalogue with the halo exactly at `z_lens`. -/
def exCat2 : List Halo := [exHalo2]

/-- A surviving background halo at redshift 2. -/
def exHalo3 : Halo := ⟨2, 1, 1, 0, 0, 0, 0⟩

/-- A one-halo catalogue whose halo lies behind the main lens. -/
def exCat3 : List Halo := [exHalo3]

/-- A surviving foreground halo with distinctive profile parameters. -/
def exHalo4 : Halo := ⟨1/2, 3, 7, 0, 0, 0, 0⟩

/-- A one-halo foreground catalogue. -/
def exCat4 : List Halo := [exHalo4]

/-- A float-valued catalogue row with NaN convergence but a flexion
residual above any small threshold. -/
def fEx : FHalo := ⟨1, FloatVal.nan, FloatVal.val 1⟩


/-! ### The cut (claim C5) -/

/-- Pointwise over real-valued rows, the discarded-side predicate of the
cut is the boolean complement of the surviving-side predicate. -/
theorem cut_pred_compl (mc mD : ℚ) (h : Halo) :
    decide (h.kappa > mc ∨ h.Del > mD) = !decide (h.kappa ≤ mc ∧ h.Del ≤ mD) := by
  by_cases h1 : h.kappa ≤ mc <;> by_cases h2 : h.Del ≤ mD
  · have a1 : ¬ h.kappa > mc := not_lt.mpr h1
    have a2 : ¬ h.Del > mD := not_lt.mpr h2
    simp [h1, h2, a1, a2]
  · have a2 : h.Del > mD := not_le.mp h2
    simp [h1, h2, a2]
  · have a1 : h.kappa > mc := not_le.mp h1
    simp [h1, a1]
  · have a1 : h.kappa > mc := not_le.mp h1
    simp [h1, a1]

/-- C5: for every catalogue and every threshold pair, the cut places a
halo in the surviving subset exactly when its own convergence is at most
`kappa_max` and its `Del` is at most `Del_max`; the surviving and
discarded subsets are disjoint and their sizes sum to the catalogue size. -/
theorem C5_cut_conservation (cat : List Halo) (mc mD : ℚ) :
    (surviving_haloes_dataframe cat mc mD).length
      + (discarded_haloes_dataframe cat mc mD).length = cat.length ∧
    (∀ h : Halo, h ∈ surviving_haloes_dataframe cat mc mD ↔
      h ∈ cat ∧ h.kappa ≤ mc ∧ h.Del ≤ mD) ∧
    (∀ h : Halo, h ∈ surviving_haloes_dataframe cat mc mD →
      h ∉ discarded_haloes_dataframe cat mc mD) := by
  refine ⟨?_, ?_, ?_⟩
  · unfold surviving_haloes_dataframe discarded_haloes_dataframe
    exact length_filter_compl _ _ cat fun x _ => cut_pred_compl mc mD x
  · intro h
    simp [surviving_haloes_dataframe, List.mem_filter, and_assoc]
  · intro h hs hd
    have hs2 := (List.mem_filter.mp hs).2
    have hd2 := (List.mem_filter.mp hd).2
    rw [cut_pred_compl mc mD h, hs2] at hd2
    exact absurd hd2 (by simp)

/-- C5 witness: the cut conservation and the survival criterion evaluated
on a concrete one-halo catalogue. -/
theorem C5_witness :
    (surviving_haloes_dataframe exCat1 (1/2) (1/10)).length
      + (discarded_haloes_dataframe exCat1 (1/2) (1/10)).length = exCat1.length ∧
    exHalo1 ∈ surviving_haloes_dataframe exCat1 (1/2) (1/10) := by
  refine ⟨(C5_cut_conservation exCat1 (1/2) (1/10)).1, ?_⟩
  refine ((C5_cut_conservation exCat1 (1/2) (1/10)).2.1 exHalo1).mpr ?_
  exact ⟨by simp [exCat1], by norm_num [exHalo1], by norm_num [exHalo1]⟩

/-! ### The foreground/background split (claim C2) -/

/-- Filtering a singleton whose element satisfies the predicate keeps it. -/
theorem filter_singleton_pos {α : Type} (p : α → Bool) (a : α) (h : p a = true) :
    [a].filter p = [a] := by
  simp [List.filter, h]

/-- Filtering a singleton whose element fails the predicate drops it. -/
theorem filter_singleton_neg {α : Type} (p : α → Bool) (a : α) (h : p a = false) :
    [a].filter p = [] := by
  simp [List.filter, h]

/-- C2 counterexample: the code splits with pandas `between`, inclusive on
both ends, so a surviving halo sitting exactly at `z_lens` lands in the
foreground subset as well as the background subset; the two subset sizes
then sum to 2 while the surviving catalogue has size 1, and the halo is
not assigned to the background subset only. -/
theorem C2_counterexample :
    exHalo2.z = z_lens ∧
    (surviving_haloes_dataframe exCat2 (1/2) (1/10)).length = 1 ∧
    exHalo2 ∈ foreground_haloes_dataframe exCat2 (1/2) (1/10) ∧
    exHalo2 ∈ background_haloes_dataframe exCat2 (1/2) (1/10) ∧
    (foreground_haloes_dataframe exCat2 (1/2) (1/10)).length
      + (background_haloes_dataframe exCat2 (1/2) (1/10)).length
      ≠ (surviving_haloes_dataframe exCat2 (1/2) (1/10)).length := by
  have hs : surviving_haloes_dataframe exCat2 (1/2) (1/10) = [exHalo2] := by
    unfold surviving_haloes_dataframe exCat2
    exact filter_singleton_pos _ _ (by norm_num [exHalo2])
  have hf : foreground_haloes_dataframe exCat2 (1/2) (1/10) = [exHalo2] := by
    unfold foreground_haloes_dataframe
    rw [hs]
    exact filter_singleton_pos _ _ (by norm_num [exHalo2, z_observer, z_lens])
  have hb : background_haloes_dataframe exCat2 (1/2) (1/10) = [exHalo2] := by
    unfold background_haloes_dataframe
    rw [hs]
    exact filter_singleton_pos _ _ (by norm_num [exHalo2, z_lens, z_source])
  refine ⟨by norm_num [exHalo2, z_lens], ?_, ?_, ?_, ?_⟩
  · rw [hs]; rfl
  · rw [hf]; exact List.mem_singleton.mpr rfl
  · rw [hb]; exact List.mem_singleton.mpr rfl
  · rw [hf, hb, hs]; simp

/-- C2 (amended): with the inclusive bounds the code actually uses, the
foreground and background subsets are disjoint and their sizes sum to the
surviving size whenever every surviving redshift lies in
`[z_observer, z_source]` and no surviving halo sits exactly at `z_lens`
(a halo exactly at `z_lens` belongs to both subsets, per the
counterexample). -/
theorem C2_partition_amended (cat : List Halo) (mc mD : ℚ)
    (hz : ∀ h ∈ surviving_haloes_dataframe cat mc mD,
      z_observer ≤ h.z ∧ h.z ≤ z_source ∧ h.z ≠ z_lens) :
    (foreground_haloes_dataframe cat mc mD).length
      + (background_haloes_dataframe cat mc mD).length
      = (surviving_haloes_dataframe cat mc mD).length ∧
    (∀ h ∈ foreground_haloes_dataframe cat mc mD,
      h ∉ background_haloes_dataframe cat mc mD) := by
  constructor
  · unfold foreground_haloes_dataframe background_haloes_dataframe
    refine length_filter_compl _ _ _ ?_
    intro x hx
    obtain ⟨h0, h1, h2⟩ := hz x hx
    by_cases hle : x.z ≤ z_lens
    · have hnb : ¬ z_lens ≤ x.z := fun hc => h2 (le_antisymm hle hc)
      simp [h0, h1, hle, hnb]
    · have hge : z_lens ≤ x.z := le_of_lt (not_le.mp hle)
      simp [h0, h1, hle, hge]
  · intro h hf hb
    have hf2 : h ∈ surviving_haloes_dataframe cat mc mD ∧ (z_observer ≤ h.z ∧ h.z ≤ z_lens) := by
      have hm := List.mem_filter.mp hf
      exact ⟨hm.1, by simpa using hm.2⟩
    have hb2 : z_lens ≤ h.z ∧ h.z ≤ z_source := by
      have hm := List.mem_filter.mp hb
      simpa using hm.2
    obtain ⟨_, _, hne⟩ := hz h hf2.1
    exact hne (le_antisymm hf2.2.2 hb2.1)

/-- C2 witness: the amended partition equation on a concrete one-halo
catalogue away from the boundary. -/
theorem C2_witness :
    (foreground_haloes_dataframe exCat1 (1/2) (1/10)).length
      + (background_haloes_dataframe exCat1 (1/2) (1/10)).length
      = (surviving_haloes_dataframe exCat1 (1/2) (1/10)).length := by
  refine (C2_partition_amended exCat1 (1/2) (1/10) ?_).1
  intro h hh
  have he : h = exHalo1 := by
    have hm := (List.mem_filter.mp hh).1
    simpa [exCat1] using hm
  subst he
  norm_num [exHalo1, z_observer, z_lens, z_source]

/-! ### Distance rescale factors (claims C7, C8, C3) -/

/-- The coded foreground factor equals the spec formula
`dA(z_h, z_lens) * d_os / (d_od * dA(z_h, z_source))`. -/
theorem foreground_distance_eq (dA : ℚ → ℚ → ℚ) (z : ℚ) :
    foreground_distance dA z = dA z z_lens * d_os dA / (d_od dA * dA z z_source) := by
  unfold foreground_distance
  rw [mul_comm (d_os dA) (dA z z_lens)]

/-- The coded background factor equals the spec formula
`dA(z_lens, z_h) * d_os / (d_ds * dA(z_obs, z_h))`. -/
theorem background_distance_eq (dA : ℚ → ℚ → ℚ) (z : ℚ) :
    background_distance dA z = dA z_lens z * d_os dA / (d_ds dA * dA z_observer z) := by
  unfold background_distance
  rw [mul_comm (d_os dA) (dA z_lens z), mul_comm (dA z_observer z) (d_ds dA)]

/-- The elementwise product of a per-halo od quantity list with the
foreground distance list is a single map over the foreground dataframe. -/
theorem od_zip_eq_map (f : LensQuantities → ℚ) (ev : LensEvaluator) (dA : ℚ → ℚ → ℚ)
    (cat : List Halo) (mc mD : ℚ) :
    List.zipWith (fun a b : ℚ => a * b)
      ((kwargs_foreground_nfw cat mc mD).map fun k => f (ev od_lens_model 0 0 k))
      (foreground_distance_combination dA cat mc mD)
    = (foreground_haloes_dataframe cat mc mD).map
        fun h => f (ev od_lens_model 0 0 (nfw_kwargs h)) * foreground_distance dA h.z := by
  unfold kwargs_foreground_nfw foreground_distance_combination foreground_halo_redshift_list
  rw [List.map_map, List.map_map]
  exact zipWith_map_same _ _ _ _

/-- The elementwise product of a per-halo ds quantity list with the
background distance list is a single map over the background dataframe. -/
theorem ds_zip_eq_map (f : LensQuantities → ℚ) (ev : LensEvaluator) (dA : ℚ → ℚ → ℚ)
    (cat : List Halo) (mc mD : ℚ) :
    List.zipWith (fun a b : ℚ => a * b)
      ((kwargs_background_nfw cat mc mD).map fun k => f (ev ds_lens_model 0 0 k))
      (background_distance_combination dA cat mc mD)
    = (background_haloes_dataframe cat mc mD).map
        fun h => f (ev ds_lens_model 0 0 (nfw_kwargs h)) * background_distance dA h.z := by
  unfold kwargs_background_nfw background_distance_combination background_halo_redshift_list
  rw [List.map_map, List.map_map]
  exact zipWith_map_same _ _ _ _

/-- C7: every od aggregate is the sum, over the foreground haloes, of the
per-halo single-plane quantity multiplied by the factor
`dA(z_h, z_lens) * d_os / (d_od * dA(z_h, z_source))`.  The od model
configuration coincides with the os one, so these per-halo quantities are
the own single-plane quantities. -/
theorem C7_foreground_rescale_factor (ev : LensEvaluator) (dA : ℚ → ℚ → ℚ)
    (cat : List Halo) (mc mD : ℚ) :
    expected_gamma_od_1 ev dA cat mc mD
      = ((foreground_haloes_dataframe cat mc mD).map fun h =>
          (ev os_lens_model 0 0 (nfw_kwargs h)).gamma1
            * (dA h.z z_lens * d_os dA / (d_od dA * dA h.z z_source))).sum ∧
    expected_gamma_od_2 ev dA cat mc mD
      = ((foreground_haloes_dataframe cat mc mD).map fun h =>
          (ev os_lens_model 0 0 (nfw_kwargs h)).gamma2
            * (dA h.z z_lens * d_os dA / (d_od dA * dA h.z z_source))).sum ∧
    expected_kappa_od ev dA cat mc mD
      = ((foreground_haloes_dataframe cat mc mD).map fun h =>
          (ev os_lens_model 0 0 (nfw_kwargs h)).kappa
            * (dA h.z z_lens * d_os dA / (d_od dA * dA h.z z_source))).sum ∧
    alpha1_od_sum ev dA cat mc mD
      = ((foreground_haloes_dataframe cat mc mD).map fun h =>
          (ev os_lens_model 0 0 (nfw_kwargs h)).alpha1
            * (dA h.z z_lens * d_os dA / (d_od dA * dA h.z z_source))).sum ∧
    alpha2_od_sum ev dA cat mc mD
      = ((foreground_haloes_dataframe cat mc mD).map fun h =>
          (ev os_lens_model 0 0 (nfw_kwargs h)).alpha2
            * (dA h.z z_lens * d_os dA / (d_od dA * dA h.z z_source))).sum := by
  refine ⟨?_, ?_, ?_, ?_, ?_⟩
  · unfold expected_gamma_od_1 gamma1_od_list
    rw [od_zip_eq_map (fun q => q.gamma1)]
    simp only [foreground_distance_eq]
    rfl
  · unfold expected_gamma_od_2 gamma2_od_list
    rw [od_zip_eq_map (fun q => q.gamma2)]
    simp only [foreground_distance_eq]
    rfl
  · unfold expected_kappa_od kappa_od_list
    rw [od_zip_eq_map (fun q => q.kappa)]
    simp only [foreground_distance_eq]
    rfl
  · unfold alpha1_od_sum alpha1_od_list
    rw [od_zip_eq_map (fun q => q.alpha1)]
    simp only [foreground_distance_eq]
    rfl
  · unfold alpha2_od_sum alpha2_od_list
    rw [od_zip_eq_map (fun q => q.alpha2)]
    simp only [foreground_distance_eq]
    rfl

/-- C8: every ds aggregate is the direct sum, over the background haloes,
of the per-halo single-plane quantity multiplied by the factor
`dA(z_lens, z_h) * d_os / (d_ds * dA(z_obs, z_h))`; the ds path performs
no multi-plane call (the ds model configuration is single-plane and
coincides with the os one). -/
theorem C8_background_rescale_factor (ev : LensEvaluator) (dA : ℚ → ℚ → ℚ)
    (cat : List Halo) (mc mD : ℚ) :
    ds_lens_model.multi_plane = false ∧
    ds_lens_model = os_lens_model ∧
    expected_gamma_ds_1 ev dA cat mc mD
      = ((background_haloes_dataframe cat mc mD).map fun h =>
          (ev os_lens_model 0 0 (nfw_kwargs h)).gamma1
            * (dA z_lens h.z * d_os dA / (d_ds dA * dA z_observer h.z))).sum ∧
    expected_gamma_ds_2 ev dA cat mc mD
      = ((background_haloes_dataframe cat mc mD).map fun h =>
          (ev os_lens_model 0 0 (nfw_kwargs h)).gamma2
            * (dA z_lens h.z * d_os dA / (d_ds dA * dA z_observer h.z))).sum ∧
    expected_kappa_ds ev dA cat mc mD
      = ((background_haloes_dataframe cat mc mD).map fun h =>
          (ev os_lens_model 0 0 (nfw_kwargs h)).kappa
            * (dA z_lens h.z * d_os dA / (d_ds dA * dA z_observer h.z))).sum := by
  refine ⟨rfl, rfl, ?_, ?_, ?_⟩
  · unfold expected_gamma_ds_1 gamma1_ds_list
    rw [ds_zip_eq_map (fun q => q.gamma1)]
    simp only [background_distance_eq]
    rfl
  · unfold expected_gamma_ds_2 gamma2_ds_list
    rw [ds_zip_eq_map (fun q => q.gamma2)]
    simp only [background_distance_eq]
    rfl
  · unfold expected_kappa_ds kappa_ds_list
    rw [ds_zip_eq_map (fun q => q.kappa)]
    simp only [background_distance_eq]
    rfl

/-- C3 counterexample: a concrete one-halo background catalogue on which
the coded `expected_kappa_ds` is nonzero; the ds path does not set
`kappa_ds` to zero unconditionally. -/
theorem C3_counterexample :
    expected_kappa_ds ev0 dA0 exCat3 (1/2) (1/10) ≠ 0 := by
  have hs : surviving_haloes_dataframe exCat3 (1/2) (1/10) = [exHalo3] := by
    unfold surviving_haloes_dataframe exCat3
    exact filter_singleton_pos _ _ (by norm_num [exHalo3])
  have hb : background_haloes_dataframe exCat3 (1/2) (1/10) = [exHalo3] := by
    unfold background_haloes_dataframe
    rw [hs]
    exact filter_singleton_pos _ _ (by norm_num [exHalo3, z_lens, z_source])
  unfold expected_kappa_ds kappa_ds_list kwargs_background_nfw
    background_distance_combination background_halo_redshift_list
  rw [hb]
  norm_num [ev0, dA0, nfw_kwargs, exHalo3, background_distance, d_os, d_ds,
    z_observer, z_lens, z_source, List.zipWith]

/-- C3 (amended): `kappa_ds` is computed by exactly the rescale-and-sum
pattern used for the two shear components: the sum over background haloes
of the per-halo single-plane convergence times the background distance
factor. -/
theorem C3_kappa_ds_rescaled_sum (ev : LensEvaluator) (dA : ℚ → ℚ → ℚ)
    (cat : List Halo) (mc mD : ℚ) :
    expected_kappa_ds ev dA cat mc mD
      = ((background_haloes_dataframe cat mc mD).map fun h =>
          (ev ds_lens_model 0 0 (nfw_kwargs h)).kappa * background_distance dA h.z).sum := by
  unfold expected_kappa_ds kappa_ds_list
  rw [ds_zip_eq_map (fun q => q.kappa)]

/-! ### LOS combination (claim C6) -/

/-- C6: the LOS outputs are `os + od - ds`, componentwise, with the
addition of os and od performed before the subtraction of ds. -/
theorem C6_los_combination (ev : LensEvaluator) (dA : ℚ → ℚ → ℚ)
    (cat : List Halo) (mc mD : ℚ) :
    expected_gamma_LOS_1 ev dA cat mc mD
      = (expected_gamma_os_1 ev cat mc mD + expected_gamma_od_1 ev dA cat mc mD)
        - expected_gamma_ds_1 ev dA cat mc mD ∧
    expected_gamma_LOS_2 ev dA cat mc mD
      = (expected_gamma_os_2 ev cat mc mD + expected_gamma_od_2 ev dA cat mc mD)
        - expected_gamma_ds_2 ev dA cat mc mD ∧
    expected_kappa_LOS ev dA cat mc mD
      = (expected_kappa_os ev cat mc mD + expected_kappa_od ev dA cat mc mD)
        - expected_kappa_ds ev dA cat mc mD :=
  ⟨rfl, rfl, rfl⟩

/-! ### Empty partitions (claim C9) -/

/-- C9: an empty foreground subset yields zero for all five od aggregates
and an empty background subset yields zero for all three ds aggregates;
the empty sum is zero, no error is possible. -/
theorem C9_empty_partition_zero (ev : LensEvaluator) (dA : ℚ → ℚ → ℚ)
    (cat : List Halo) (mc mD : ℚ) :
    (foreground_haloes_dataframe cat mc mD = [] →
      expected_gamma_od_1 ev dA cat mc mD = 0 ∧
      expected_gamma_od_2 ev dA cat mc mD = 0 ∧
      expected_kappa_od ev dA cat mc mD = 0 ∧
      alpha1_od_sum ev dA cat mc mD = 0 ∧
      alpha2_od_sum ev dA cat mc mD = 0) ∧
    (background_haloes_dataframe cat mc mD = [] →
      expected_gamma_ds_1 ev dA cat mc mD = 0 ∧
      expected_gamma_ds_2 ev dA cat mc mD = 0 ∧
      expected_kappa_ds ev dA cat mc mD = 0) := by
  constructor
  · intro hfg
    refine ⟨?_, ?_, ?_, ?_, ?_⟩ <;>
      simp [expected_gamma_od_1, expected_gamma_od_2, expected_kappa_od,
        alpha1_od_sum, alpha2_od_sum, gamma1_od_list, gamma2_od_list,
        kappa_od_list, alpha1_od_list, alpha2_od_list, kwargs_foreground_nfw,
        foreground_distance_combination, foreground_halo_redshift_list, hfg]
  · intro hbg
    refine ⟨?_, ?_, ?_⟩ <;>
      simp [expected_gamma_ds_1, expected_gamma_ds_2, expected_kappa_ds,
        gamma1_ds_list, gamma2_ds_list, kappa_ds_list, kwargs_background_nfw,
        background_distance_combination, background_halo_redshift_list, hbg]

/-- C9 witness: the empty catalogue has empty foreground and background
subsets, and the od and ds convergence aggregates evaluate to zero. -/
theorem C9_witness :
    expected_kappa_od ev0 dA0 [] (1/2) (1/10) = 0 ∧
    expected_kappa_ds ev0 dA0 [] (1/2) (1/10) = 0 :=
  ⟨((C9_empty_partition_zero ev0 dA0 [] (1/2) (1/10)).1 rfl).2.2.1,
   ((C9_empty_partition_zero ev0 dA0 [] (1/2) (1/10)).2 rfl).2.2⟩

/-! ### The os construction (claim C1) -/

/-- C1 counterexample: on a concrete catalogue with one surviving halo,
the lens system the code queries for the os aggregate contains no
CONVERGENCE entry at all (its model list is the constant `[NFW]`), has no
per-entry redshift list and has multi-plane ray tracing disabled, so it is
not the claimed paired NFW/CONVERGENCE multi-plane system. -/
theorem C1_counterexample :
    (surviving_haloes_dataframe exCat1 (1/2) (1/10)).length = 1 ∧
    os_lens_model.lens_model_list.count ProfileKind.CONVERGENCE = 0 ∧
    os_lens_model.multi_plane = false ∧
    os_lens_model.lens_redshift_list = none := by
  refine ⟨?_, rfl, rfl, rfl⟩
  have hs : surviving_haloes_dataframe exCat1 (1/2) (1/10) = [exHalo1] := by
    unfold surviving_haloes_dataframe exCat1
    exact filter_singleton_pos _ _ (by norm_num [exHalo1])
  rw [hs]
  rfl

/-- C1 (amended): the os aggregate is obtained by evaluating each
surviving halo on its own in the fixed single-entry, single-plane `[NFW]`
lens model with terminal source redshift `z_source`, and summing the five
per-halo quantities over the surviving haloes; no CONVERGENCE
cancellation entries and no multi-plane recursion are involved. -/
theorem C1_os_single_plane_sum (ev : LensEvaluator) (cat : List Halo) (mc mD : ℚ) :
    os_lens_model.lens_model_list = [ProfileKind.NFW] ∧
    os_lens_model.z_source = z_source ∧
    os_lens_model.multi_plane = false ∧
    expected_gamma_os_1 ev cat mc mD
      = ((surviving_haloes_dataframe cat mc mD).map fun h =>
          (ev os_lens_model 0 0 (nfw_kwargs h)).gamma1).sum ∧
    expected_gamma_os_2 ev cat mc mD
      = ((surviving_haloes_dataframe cat mc mD).map fun h =>
          (ev os_lens_model 0 0 (nfw_kwargs h)).gamma2).sum ∧
    expected_kappa_os ev cat mc mD
      = ((surviving_haloes_dataframe cat mc mD).map fun h =>
          (ev os_lens_model 0 0 (nfw_kwargs h)).kappa).sum ∧
    alpha1_os_sum ev cat mc mD
      = ((surviving_haloes_dataframe cat mc mD).map fun h =>
          (ev os_lens_model 0 0 (nfw_kwargs h)).alpha1).sum ∧
    alpha2_os_sum ev cat mc mD
      = ((surviving_haloes_dataframe cat mc mD).map fun h =>
          (ev os_lens_model 0 0 (nfw_kwargs h)).alpha2).sum := by
  refine ⟨rfl, rfl, rfl, ?_, ?_, ?_, ?_, ?_⟩
  · unfold expected_gamma_os_1 gamma1_os_list kwargs_surviving_nfw
    rw [List.map_map]
    rfl
  · unfold expected_gamma_os_2 gamma2_os_list kwargs_surviving_nfw
    rw [List.map_map]
    rfl
  · unfold expected_kappa_os kappa_os_list kwargs_surviving_nfw
    rw [List.map_map]
    rfl
  · unfold alpha1_os_sum alpha1_os_list kwargs_surviving_nfw
    rw [List.map_map]
    rfl
  · unfold alpha2_os_sum alpha2_os_list kwargs_surviving_nfw
    rw [List.map_map]
    rfl

/-! ### The od context (claim C4) -/

/-- C4 counterexample: the od lens model is constructed with terminal
source redshift `z_source`, not `z_lens` (and `z_source` and `z_lens`
differ), and on a concrete one-halo foreground catalogue the angular NFW
parameters used in the od loop are identical to the ones used in the os
loop — no reconversion against `z_lens` takes place. -/
theorem C4_counterexample :
    od_lens_model.z_source = z_source ∧
    z_source ≠ z_lens ∧
    kwargs_foreground_nfw exCat4 (1/2) (1/10)
      = kwargs_surviving_nfw exCat4 (1/2) (1/10) ∧
    (kwargs_foreground_nfw exCat4 (1/2) (1/10)).length = 1 := by
  have hs : surviving_haloes_dataframe exCat4 (1/2) (1/10) = [exHalo4] := by
    unfold surviving_haloes_dataframe exCat4
    exact filter_singleton_pos _ _ (by norm_num [exHalo4])
  have hf : foreground_haloes_dataframe exCat4 (1/2) (1/10) = [exHalo4] := by
    unfold foreground_haloes_dataframe
    rw [hs]
    exact filter_singleton_pos _ _ (by norm_num [exHalo4, z_observer, z_lens])
  refine ⟨rfl, by norm_num [z_source, z_lens], ?_, ?_⟩
  · unfold kwargs_foreground_nfw kwargs_surviving_nfw
    rw [hs, hf]
  · unfold kwargs_foreground_nfw
    rw [hf]
    rfl

/-- C4 (amended): the od computation reuses the os context unchanged: the
od lens model equals the os lens model (same `[NFW]` list, same terminal
`z_source`), and each foreground halo enters the od loop with exactly the
angular parameters it has in the os loop (its kwargs are among the
surviving kwargs); the od-specific correction is applied afterwards
through the multiplicative foreground distance factor, not through
reconversion. -/
theorem C4_od_reuses_os_context (ev : LensEvaluator) (cat : List Halo) (mc mD : ℚ) :
    od_lens_model = os_lens_model ∧
    od_lens_model.z_source = z_source ∧
    (∀ h ∈ foreground_haloes_dataframe cat mc mD,
      nfw_kwargs h ∈ kwargs_surviving_nfw cat mc mD) ∧
    gamma1_od_list ev cat mc mD
      = (foreground_haloes_dataframe cat mc mD).map
          fun h => (ev os_lens_model 0 0 (nfw_kwargs h)).gamma1 := by
  refine ⟨rfl, rfl, ?_, ?_⟩
  · intro h hh
    have hsub : h ∈ surviving_haloes_dataframe cat mc mD := (List.mem_filter.mp hh).1
    unfold kwargs_surviving_nfw
    exact List.mem_map_of_mem nfw_kwargs hsub
  · unfold gamma1_od_list kwargs_foreground_nfw
    rw [List.map_map]
    rfl

/-- C4 witness: the kwargs of the concrete foreground halo appear among
the surviving kwargs, through the amended theorem. -/
theorem C4_witness :
    nfw_kwargs exHalo4 ∈ kwargs_surviving_nfw exCat4 (1/2) (1/10) := by
  refine (C4_od_reuses_os_context ev0 exCat4 (1/2) (1/10)).2.2.1 exHalo4 ?_
  have hs : surviving_haloes_dataframe exCat4 (1/2) (1/10) = [exHalo4] := by
    unfold surviving_haloes_dataframe exCat4
    exact filter_singleton_pos _ _ (by norm_num [exHalo4])
  have hf : foreground_haloes_dataframe exCat4 (1/2) (1/10) = [exHalo4] := by
    unfold foreground_haloes_dataframe
    rw [hs]
    exact filter_singleton_pos _ _ (by norm_num [exHalo4, z_observer, z_lens])
  rw [hf]
  exact List.mem_singleton.mpr rfl

/-! ### NaN rows and the size assertion (claim C10) -/

/-- Pointwise over possibly-NaN rows: a surviving row is never discarded. -/
theorem fcut_pred_disjoint (mc mD : ℚ) (h : FHalo) :
    (fle h.kappa mc && fle h.Del mD) = true →
    (fgt h.kappa mc || fgt h.Del mD) = false := by
  intro hs
  cases hk : h.kappa with
  | nan => rw [hk] at hs; simp [fle] at hs
  | val a =>
    cases hd : h.Del with
    | nan => rw [hd] at hs; simp [fle] at hs
    | val b =>
      rw [hk, hd] at hs
      simp [fle] at hs
      simp [fgt]
      exact hs

/-- Pointwise over NaN-free rows, the discarded-side predicate is the
boolean complement of the surviving-side predicate. -/
theorem fcut_pred_compl (mc mD : ℚ) (h : FHalo)
    (hk : h.kappa ≠ FloatVal.nan) (hd : h.Del ≠ FloatVal.nan) :
    (fgt h.kappa mc || fgt h.Del mD) = !(fle h.kappa mc && fle h.Del mD) := by
  cases hk2 : h.kappa with
  | nan => exact absurd hk2 hk
  | val a =>
    cases hd2 : h.Del with
    | nan => exact absurd hd2 hd
    | val b =>
      by_cases h1 : a ≤ mc <;> by_cases h2 : b ≤ mD
      · have a1 : ¬ mc < a := not_lt.mpr h1
        have a2 : ¬ mD < b := not_lt.mpr h2
        simp [fle, fgt, h1, h2, a1, a2]
      · have a2 : mD < b := not_le.mp h2
        simp [fle, fgt, h1, h2, a2]
      · have a1 : mc < a := not_le.mp h1
        simp [fle, fgt, h1, a1]
      · have a1 : mc < a := not_le.mp h1
        simp [fle, fgt, h1, a1]

/-- C10 counterexample: a halo whose `kappa` is NaN but whose `Del`
exceeds the threshold does satisfy the discarded predicate, lands in the
discarded subset, and the post-cut size assertion passes — the claim that
such a halo satisfies neither predicate and always breaks the assertion
is false. -/
theorem C10_counterexample :
    fEx.kappa = FloatVal.nan ∧
    (fgt fEx.kappa (1/2) || fgt fEx.Del (1/10)) = true ∧
    discarded_haloes_f [fEx] (1/2) (1/10) = [fEx] ∧
    surviving_haloes_f [fEx] (1/2) (1/10) = [] ∧
    cut_size_assert [fEx] (1/2) (1/10) = true := by
  have h2 : fgt fEx.Del (1/10) = true := by
    show decide ((1:ℚ)/10 < 1) = true
    norm_num
  have hor : (fgt fEx.kappa (1/2) || fgt fEx.Del (1/10)) = true := by
    rw [h2, Bool.or_true]
  have hdl : discarded_haloes_f [fEx] (1/2) (1/10) = [fEx] := by
    unfold discarded_haloes_f
    exact filter_singleton_pos _ _ hor
  have hsv : surviving_haloes_f [fEx] (1/2) (1/10) = [] := by
    unfold surviving_haloes_f
    refine filter_singleton_neg _ _ ?_
    rw [show fle fEx.kappa (1/2) = false from rfl, Bool.false_and]
  refine ⟨rfl, hor, hdl, hsv, ?_⟩
  unfold cut_size_assert
  rw [hdl, hsv]
  rfl

/-- C10 (amended): a halo with NaN `kappa` or `Del` never satisfies the
surviving predicate; whenever a catalogue row satisfies neither the
surviving nor the discarded predicate the post-cut size assertion fails
(aborting the run before output), and for catalogues whose `kappa` and
`Del` are all non-NaN the assertion always passes.  (A NaN row whose
other field exceeds its threshold is still discarded, so NaN alone does
not force the assertion to fail — see the counterexample.) -/
theorem C10_nan_cut (cat : List FHalo) (mc mD : ℚ) :
    ((∀ h ∈ cat, h.kappa ≠ FloatVal.nan ∧ h.Del ≠ FloatVal.nan) →
      cut_size_assert cat mc mD = true) ∧
    (∀ h : FHalo, (h.kappa = FloatVal.nan ∨ h.Del = FloatVal.nan) →
      (fle h.kappa mc && fle h.Del mD) = false) ∧
    (∀ h ∈ cat, (fle h.kappa mc && fle h.Del mD) = false →
      (fgt h.kappa mc || fgt h.Del mD) = false →
      cut_size_assert cat mc mD = false) := by
  refine ⟨?_, ?_, ?_⟩
  · intro hfin
    have hlen : (cat.filter fun h => fle h.kappa mc && fle h.Del mD).length
        + (cat.filter fun h => fgt h.kappa mc || fgt h.Del mD).length = cat.length :=
      length_filter_compl _ _ cat fun x hx =>
        fcut_pred_compl mc mD x (hfin x hx).1 (hfin x hx).2
    unfold cut_size_assert discarded_haloes_f surviving_haloes_f
    exact beq_iff_eq.mpr (by omega)
  · intro h hnan
    rcases hnan with hk | hd
    · have : fle h.kappa mc = false := by rw [hk]; rfl
      simp [this]
    · have : fle h.Del mD = false := by rw [hd]; rfl
      simp [this]
  · intro h hmem hsf hdf
    have hdisj : ∀ x ∈ cat, (fgt x.kappa mc || fgt x.Del mD) = true →
        (fle x.kappa mc && fle x.Del mD) = false := by
      intro x _ hxd
      cases hcase : (fle x.kappa mc && fle x.Del mD) with
      | false => rfl
      | true =>
          rw [fcut_pred_disjoint mc mD x hcase] at hxd
          exact absurd hxd (by simp)
    have hlt := length_filter_two_lt
      (fun x : FHalo => fgt x.kappa mc || fgt x.Del mD)
      (fun x : FHalo => fle x.kappa mc && fle x.Del mD) cat hdisj h hmem hdf hsf
    unfold cut_size_assert discarded_haloes_f surviving_haloes_f
    refine beq_eq_false_iff_ne.mpr ?_
    omega

/-- C10 witness: on a NaN-free one-row catalogue the size assertion
passes, through the amended theorem. -/
theorem C10_witness :
    cut_size_assert [(⟨1, FloatVal.val 0, FloatVal.val 0⟩ : FHalo)] (1/2) (1/10) = true := by
  refine (C10_nan_cut [(⟨1, FloatVal.val 0, FloatVal.val 0⟩ : FHalo)] (1/2) (1/10)).1 ?_
  intro h hh
  have he : h = (⟨1, FloatVal.val 0, FloatVal.val 0⟩ : FHalo) := by
    simpa using hh
  subst he
  exact ⟨by simp, by simp⟩

end DistributedHaloesCutter
